import Mathlib

/-!
Verification of the robotics-radar content curation core: a shallow
embedding in Lean 4 of the scoring engine (src/scoring/scoring_model.py),
the storage ledger (src/storage/database.py), the feedback processor
(src/feedback/feedback_processor.py) and the smart publisher
(src/scraper/smart_publisher.py), together with theorems settling the
behavioural claims about these components.

Modelling conventions: Python floats are idealised as rationals, SQLite
timestamps as integers (seconds), Python dicts as association lists in
insertion order, and the transcendental math.log10 as an explicit function
parameter. Fallible operations return a success flag or an Except value,
mirroring the try/except structure of the source.
-/

/-- Association-list lookup with a default, mirroring Python dict.get(k, d). -/
def lookupD (m : List (String × ℚ)) (k : String) (d : ℚ) : ℚ :=
  match m.lookup k with
  | some v => v
  | none => d

/-- Python dict assignment d[k] = v: replace the binding in place when the key
is present, otherwise append it, preserving insertion order. -/
def insertKV (m : List (String × ℚ)) (k : String) (v : ℚ) : List (String × ℚ) :=
  match m with
  | [] => [(k, v)]
  | (k2, v2) :: rest => if k2 = k then (k, v) :: rest else (k2, v2) :: insertKV rest k v

/-- Scoring weights from scoring_model.ScoringWeights. The category_weights
and user_preferences dicts are association lists; a None or empty dict in the
source is modelled as the empty list (both are falsy in Python, and the source
only tests them for truthiness). -/
structure ScoringWts where
  likes : ℚ
  retweets : ℚ
  replies : ℚ
  userFeedback : ℚ
  authorFollowers : ℚ
  contentLength : ℚ
  categoryWeights : List (String × ℚ)
  userPreferences : List (String × ℚ)
deriving DecidableEq

/-- Default weights from the ScoringWeights dataclass defaults. -/
def defaultWts : ScoringWts :=
  { likes := 1, retweets := 2, replies := 3/2, userFeedback := 3,
    authorFollowers := 1/10, contentLength := 1/2,
    categoryWeights := [], userPreferences := [] }

/-- Minimum thresholds from ScoringModel._load_thresholds. -/
structure Thresholds where
  minLikes : ℕ
  minRetweets : ℕ
  minAuthorFollowers : ℕ
deriving DecidableEq

/-- Default thresholds (min_likes 10, min_retweets 5, min_author_followers 1000). -/
def defaultThresholds : Thresholds :=
  { minLikes := 10, minRetweets := 5, minAuthorFollowers := 1000 }

/-- Feedback tally handed to apply_feedback_adjustment: the like and dislike
counts. A None or empty dict argument of the source is modelled as the none
case at the call site (calculate_final_score). -/
structure FeedbackCounts where
  like : ℕ
  dislike : ℕ
deriving DecidableEq

/-- Tweet/article record as read by the scoring functions from the tweet_data
dict. The created_at timestamp is replaced by hoursAgo, the hours elapsed
between created_at and the current time as computed in
_calculate_recency_bonus; none models a missing created_at. -/
structure TweetData where
  likes : ℕ
  retweets : ℕ
  replies : ℕ
  authorFollowers : ℕ
  text : String
  categories : List String
  hoursAgo : Option ℚ
deriving DecidableEq

/-- Recency bonus step function from ScoringModel._calculate_recency_bonus:
hours within 1 give 50, within 6 give 30, within 24 give 15, within 168 give
5, otherwise 0; a missing created_at gives 0. -/
def recencyBonus : Option ℚ → ℚ
  | none => 0
  | some h =>
    if h ≤ 1 then 50
    else if h ≤ 6 then 30
    else if h ≤ 24 then 15
    else if h ≤ 168 then 5
    else 0

/-- Threshold check from ScoringModel._meets_thresholds: zero-engagement items
(likes = 0 and retweets = 0) pass when author_followers is at least 100;
other items must clear the three configured floors simultaneously. -/
def meetsThresholds (th : Thresholds) (t : TweetData) : Bool :=
  if t.likes = 0 ∧ t.retweets = 0 then
    decide (100 ≤ t.authorFollowers)
  else
    decide (th.minLikes ≤ t.likes ∧ th.minRetweets ≤ t.retweets ∧
            th.minAuthorFollowers ≤ t.authorFollowers)

/-- Base score from ScoringModel.calculate_base_score. The parameter lg models
math.log10. Zero-engagement items get a flat 100 plus author, content and
recency terms; others get the weighted engagement sum plus the same terms. -/
def calculateBaseScore (lg : ℚ → ℚ) (w : ScoringWts) (t : TweetData) : ℚ :=
  let authorScore := lg (max (t.authorFollowers : ℚ) 1) * w.authorFollowers
  let contentScore := min ((t.text.length : ℚ) / 280) 1 * w.contentLength
  let rb := recencyBonus t.hoursAgo
  if t.likes = 0 ∧ t.retweets = 0 then
    100 + authorScore + contentScore + rb
  else
    ((t.likes : ℚ) * w.likes + (t.retweets : ℚ) * w.retweets +
      (t.replies : ℚ) * w.replies) + authorScore + contentScore + rb

/-- Feedback adjustment from ScoringModel.apply_feedback_adjustment: with both
counts zero the base score is returned unchanged, otherwise the base score is
multiplied by 1 + (like_ratio - 1/2) * 2. The second zero-total guard of the
source is kept even though it is unreachable for natural counts. -/
def applyFeedbackAdjustment (base : ℚ) (fb : FeedbackCounts) : ℚ :=
  if fb.like = 0 ∧ fb.dislike = 0 then base
  else if fb.like + fb.dislike = 0 then base
  else base * (1 + ((fb.like : ℚ) / ((fb.like : ℚ) + (fb.dislike : ℚ)) - 1/2) * 2)

/-- Category multiplier from ScoringModel.calculate_category_score: 1 when no
category weights are configured or the item has no categories, otherwise the
arithmetic mean of the configured weights of the item categories, defaulting
each unconfigured category to 1. -/
def calculateCategoryScore (w : ScoringWts) (t : TweetData) : ℚ :=
  if w.categoryWeights = [] then 1
  else if t.categories = [] then 1
  else ((t.categories.map (fun c => lookupD w.categoryWeights c 1)).sum) /
    (t.categories.length : ℚ)

/-- Final score from ScoringModel.calculate_final_score: 0 when the threshold
gate fails, otherwise the base score, feedback-adjusted when a feedback tally
is supplied, times the category multiplier, floored at 0. -/
def calculateFinalScore (lg : ℚ → ℚ) (w : ScoringWts) (th : Thresholds)
    (t : TweetData) (fb : Option FeedbackCounts) : ℚ :=
  if meetsThresholds th t = false then 0
  else
    let base := calculateBaseScore lg w t
    let adjusted :=
      match fb with
      | some f => applyFeedbackAdjustment base f
      | none => base
    let catMul := calculateCategoryScore w t
    max 0 (adjusted * catMul)

/-- Preference update from ScoringModel.update_user_preferences. When the
user_preferences dict is falsy (None or empty) the call returns with no state
change. Otherwise the learning rate is read from the user_preferences dict
under the key learning_rate (default 1/10), the rating is normalised to
(rating - 1)/4, the new preference is old + lr * (normalised - old); the
clamped value max(1/10, new) is written into category_weights (only when that
dict is itself non-falsy) and the unclamped value into user_preferences. -/
def updateUserPreferences (w : ScoringWts) (category : String) (rating : ℤ) : ScoringWts :=
  if w.userPreferences = [] then w
  else
    let lr := lookupD w.userPreferences "learning_rate" (1/10)
    let cur := lookupD w.userPreferences category 1
    let normalized := ((rating : ℚ) - 1) / 4
    let newPref := cur + lr * (normalized - cur)
    let cw :=
      if w.categoryWeights = [] then w.categoryWeights
      else insertKV w.categoryWeights category (max (1/10) newPref)
    { w with categoryWeights := cw,
             userPreferences := insertKV w.userPreferences category newPref }

/-- Unclamped preference value computed by a single update_user_preferences
call for a category, as written to the user_preferences dict. -/
def newPrefValue (w : ScoringWts) (category : String) (rating : ℤ) : ℚ :=
  let lr := lookupD w.userPreferences "learning_rate" (1/10)
  let cur := lookupD w.userPreferences category 1
  cur + lr * (((rating : ℚ) - 1) / 4 - cur)

/-- Fold of update_user_preferences over a sequence of (category, rating)
calls. -/
def applyPrefUpdates (w : ScoringWts) (us : List (String × ℤ)) : ScoringWts :=
  us.foldl (fun s u => updateUserPreferences s u.1 u.2) w

/-- Row of the articles table. The columns created by init_database are id,
text, author_id, author_username, author_name, author_followers, likes,
retweets, replies, url, created_at, score, topics, categories, summary and
created_timestamp; the add_published_at_column migration adds a nullable
published_at. Payload columns never read by the ledger operations under
verification (the author columns, likes, retweets, replies, topics, summary,
created_timestamp) are omitted; created_at is an integer timestamp in
seconds; a categories value of NULL and an empty list are both modelled as
the empty list (both are falsy where the source tests them). -/
structure Row where
  id : String
  text : String
  url : String
  score : ℚ
  createdAt : ℤ
  categories : List String
  publishedAt : Option ℤ
deriving DecidableEq

/-- Article argument of insert_article (the Article dataclass): it carries no
published_at field. -/
structure ArticleIn where
  id : String
  text : String
  url : String
  score : ℚ
  createdAt : ℤ
  categories : List String
deriving DecidableEq

/-- Column names of the articles table after init_database plus the
add_published_at_column migration. There is no title column. -/
def articlesTableColumns : List String :=
  ["id", "text", "author_id", "author_username", "author_name",
   "author_followers", "likes", "retweets", "replies", "url", "created_at",
   "score", "topics", "categories", "summary", "created_timestamp",
   "published_at"]

/-- DatabaseManager.insert_article: INSERT OR REPLACE INTO articles with an
explicit column list that does not include published_at. On an id conflict
SQLite deletes the existing row and inserts the new one, whose published_at
takes the column default NULL. The replacement row gets a fresh rowid, hence
is appended. -/
def insertArticle (rows : List Row) (a : ArticleIn) : List Row :=
  rows.filter (fun r => decide (r.id ≠ a.id)) ++
    [{ id := a.id, text := a.text, url := a.url, score := a.score,
       createdAt := a.createdAt, categories := a.categories,
       publishedAt := none }]

/-- DatabaseManager.mark_article_published: UPDATE articles SET published_at =
CURRENT_TIMESTAMP WHERE id = ?, then return whether any row was updated. The
update is unconditional on the previous published_at value. -/
def markArticlePublished (rows : List Row) (artId : String) (now : ℤ) :
    Bool × List Row :=
  (rows.any (fun r => r.id == artId),
   rows.map (fun r => if r.id = artId then { r with publishedAt := some now } else r))

/-- DatabaseManager.update_article_score: UPDATE articles SET score = ? WHERE
id = ?. -/
def updateArticleScore (rows : List Row) (artId : String) (s : ℚ) : List Row :=
  rows.map (fun r => if r.id = artId then { r with score := s } else r)

/-- Article-mutating ledger operations of DatabaseManager modelled for the
publish-state claims: insert_article, mark_article_published and
update_article_score. -/
inductive LedgerOp where
  | insert (a : ArticleIn)
  | mark (artId : String) (now : ℤ)
  | setScore (artId : String) (s : ℚ)
deriving DecidableEq

/-- Effect of one ledger operation on the articles table. -/
def applyOp (rows : List Row) : LedgerOp → List Row
  | .insert a => insertArticle rows a
  | .mark artId now => (markArticlePublished rows artId now).2
  | .setScore artId s => updateArticleScore rows artId s

/-- Effect of a sequence of ledger operations. -/
def applyOps (rows : List Row) (ops : List LedgerOp) : List Row :=
  ops.foldl applyOp rows

/-- Lookup of an article row by id (SELECT ... WHERE id = ?). -/
def findRow (rows : List Row) (artId : String) : Option Row :=
  rows.find? (fun r => r.id == artId)

/-- Ids of the stored rows; the id column is the PRIMARY KEY, so these are
pairwise distinct in any reachable table state. -/
def rowIds (rows : List Row) : List String :=
  rows.map (fun r => r.id)

/-- Single-row selection under ORDER BY score DESC, created_at DESC LIMIT 1:
the row maximal in the lexicographic (score, created_at) order; on a full tie
the earlier stored row is kept (the SQL leaves the tie order unspecified). -/
def selectTop : List Row → Option Row
  | [] => none
  | r :: rs =>
    match selectTop rs with
    | none => some r
    | some b =>
      if b.score > r.score ∨ (b.score = r.score ∧ b.createdAt > r.createdAt) then
        some b
      else some r

/-- Rows with published_at IS NULL. -/
def unpubRows (rows : List Row) : List Row :=
  rows.filter (fun r => r.publishedAt.isNone)

/-- Rows with published_at IS NULL and created_at within the last 2 hours
(created_at >= datetime(now, -2 hours)). -/
def recentUnpubRows (now : ℤ) (rows : List Row) : List Row :=
  rows.filter (fun r => r.publishedAt.isNone && decide (now - 7200 ≤ r.createdAt))

/-- DatabaseManager.get_next_article_to_publish: first the best unpublished
row created in the last 2 hours, then, if none, the best unpublished row
overall, each under ORDER BY score DESC, created_at DESC LIMIT 1; none when
no unpublished row exists. -/
def getNextArticleToPublish (now : ℤ) (rows : List Row) : Option Row :=
  match selectTop (recentUnpubRows now rows) with
  | some r => some r
  | none => selectTop (unpubRows rows)

/-- Python str.lower restricted to the character-wise case fold (ASCII and
simple one-to-one mappings). -/
def pyLower (s : String) : String :=
  String.mk (s.data.map Char.toLower)

/-- DatabaseManager.url_exists: COUNT of rows WHERE url = ? is positive. -/
def urlExists (rows : List Row) (url : String) : Bool :=
  rows.any (fun r => r.url == url)

/-- Result of SELECT title FROM articles ORDER BY created_at DESC LIMIT 1000
inside title_similarity_exists. The articles table (articlesTableColumns) has
no title column, so sqlite3 raises OperationalError: no such column: title,
modelled as the error case. -/
def selectRecentTitles (_ : List Row) : Except String (List String) :=
  Except.error "no such column: title"

/-- DatabaseManager.title_similarity_exists: fetch the recent titles, then
report whether some stored title is at least threshold-similar to the
case-folded candidate. The sim parameter models difflib.SequenceMatcher
ratio. Any exception, including the OperationalError raised by the title
query, is caught and False is returned. -/
def titleSimilarityExists (sim : String → String → ℚ) (rows : List Row)
    (title : String) (threshold : ℚ) : Bool :=
  match selectRecentTitles rows with
  | .error _ => false
  | .ok titles =>
    titles.any (fun et => decide (threshold ≤ sim (pyLower title) (pyLower et)))

/-- Insertion of a row into a list sorted by created_at descending. -/
def insertByCreatedDesc (r : Row) : List Row → List Row
  | [] => [r]
  | x :: xs =>
    if x.createdAt < r.createdAt then r :: x :: xs
    else x :: insertByCreatedDesc r xs

/-- Rows sorted by created_at descending (ORDER BY created_at DESC). -/
def sortByCreatedDesc (rows : List Row) : List Row :=
  rows.foldr insertByCreatedDesc []

/-- Texts of the most recent rows (SELECT text FROM articles ORDER BY
created_at DESC LIMIT 500). -/
def recentTexts (rows : List Row) : List String :=
  ((sortByCreatedDesc rows).take 500).map (fun r => r.text)

/-- DatabaseManager.is_duplicate_content: exact URL check, then fuzzy title
check at threshold 4/5, then, only when a non-empty content preview is
supplied, fuzzy content check at threshold 7/10 over the 500 most recent
texts. -/
def isDuplicateContent (sim : String → String → ℚ) (rows : List Row)
    (title url : String) (preview : Option String) : Bool :=
  if urlExists rows url then true
  else if titleSimilarityExists sim rows title (4/5) then true
  else
    match preview with
    | none => false
    | some p =>
      if p = "" then false
      else (recentTexts rows).any
        (fun et => decide ((7/10 : ℚ) ≤ sim (pyLower p) (pyLower et)))

/-- Feedback row of the feedback table: (article_id, user_id, feedback_type,
created_at) with UNIQUE(article_id, user_id). -/
structure FeedbackRow where
  articleId : String
  userId : String
  feedbackType : String
  createdAt : ℤ
deriving DecidableEq

/-- Feedback types admitted by the CHECK constraint of the feedback table. -/
def allowedFeedbackTypes : List String :=
  ["like", "dislike", "rating_1", "rating_2", "rating_3", "rating_4", "rating_5"]

/-- DatabaseManager.add_feedback: INSERT OR REPLACE honouring the
UNIQUE(article_id, user_id) constraint (the previous row of the pair is
replaced) and the CHECK constraint on feedback_type (a violation raises
IntegrityError, caught, and False is returned with no row stored). -/
def addFeedback (rows : List FeedbackRow) (articleId userId ftype : String)
    (now : ℤ) : Bool × List FeedbackRow :=
  if ftype ∈ allowedFeedbackTypes then
    (true,
     rows.filter (fun f => decide (¬(f.articleId = articleId ∧ f.userId = userId))) ++
       [{ articleId := articleId, userId := userId, feedbackType := ftype,
          createdAt := now }])
  else (false, rows)

/-- Characters split by Python str.split with separator underscore: every
underscore separates two (possibly empty) groups. -/
def splitUnderscoreChars : List Char → List (List Char)
  | [] => [[]]
  | c :: cs =>
    let r := splitUnderscoreChars cs
    if c = '_' then [] :: r
    else
      match r with
      | [] => [[c]]
      | g :: gs => (c :: g) :: gs

/-- Python s.split with separator underscore. -/
def pySplitUnderscore (s : String) : List String :=
  (splitUnderscoreChars s.data).map (fun l => String.mk l)

/-- ASCII whitespace recognised when stripping an int literal. -/
def isWsChar (c : Char) : Bool :=
  decide (c = ' ' ∨ c = '\t' ∨ c = '\n' ∨ c = '\r')

/-- Accumulating decimal parse of a digit run; none on a non-digit. -/
def digitsValAux : List Char → ℕ → Option ℕ
  | [], acc => some acc
  | c :: cs, acc =>
    if '0' ≤ c ∧ c ≤ '9' then digitsValAux cs (acc * 10 + (c.toNat - '0'.toNat))
    else none

/-- Decimal value of a non-empty digit run; none otherwise. -/
def digitsVal : List Char → Option ℕ
  | [] => none
  | cs => digitsValAux cs 0

/-- Python int(s) on ASCII input: strip surrounding whitespace, allow one
optional sign, then require a non-empty digit run; none models the
ValueError raised otherwise. -/
def pyInt (s : String) : Option ℤ :=
  match (s.data.dropWhile isWsChar).reverse.dropWhile isWsChar |>.reverse with
  | '-' :: rest => (digitsVal rest).map (fun n => -(n : ℤ))
  | '+' :: rest => (digitsVal rest).map (fun n => (n : ℤ))
  | cs => (digitsVal cs).map (fun n => (n : ℤ))

/-- Python feedback_type.startswith of the rating marker. -/
def isRatingType (s : String) : Bool :=
  "rating_".data.isPrefixOf s.data

/-- Validation block of FeedbackProcessor.process_feedback: a type starting
with rating_ must have a second underscore-separated token parsing as an
integer between 1 and 5 (IndexError and ValueError are caught and reject);
any other type must be exactly like or dislike. -/
def validateFeedbackType (t : String) : Bool :=
  if isRatingType t then
    match (pySplitUnderscore t).get? 1 with
    | none => false
    | some tok =>
      match pyInt tok with
      | none => false
      | some r => decide (1 ≤ r ∧ r ≤ 5)
  else decide (t = "like" ∨ t = "dislike")

/-- FeedbackProcessor._get_article_categories: the categories of the stored
article, or the fallback robotics_general when the article is missing or has
no categories. -/
def getArticleCategories (articles : List Row) (artId : String) : List String :=
  match articles.find? (fun r => r.id == artId) with
  | some a => if a.categories = [] then ["robotics_general"] else a.categories
  | none => ["robotics_general"]

/-- FeedbackProcessor._update_user_preferences: parse the rating from the
feedback type (an unparsable rating raises inside the try block, caught as a
no-op) and run update_user_preferences for every category of the article. -/
def updatePrefsFromRating (articles : List Row) (w : ScoringWts)
    (tweetId ftype : String) : ScoringWts :=
  match (pySplitUnderscore ftype).get? 1 with
  | none => w
  | some tok =>
    match pyInt tok with
    | none => w
    | some r =>
      (getArticleCategories articles tweetId).foldl
        (fun acc c => updateUserPreferences acc c r) w

/-- FeedbackProcessor._adjust_scoring_weights: _get_feedback_statistics
returns a fixed positive_ratio of 3/4, which exceeds 7/10, so every call
scales the user_feedback weight by 11/10. -/
def adjustScoringWeights (w : ScoringWts) : ScoringWts :=
  { w with userFeedback := w.userFeedback * (11/10) }

/-- State touched by the feedback processor: the articles table, the feedback
table and the in-memory scoring weights (including the preference maps). -/
structure ProcState where
  articles : List Row
  feedback : List FeedbackRow
  weights : ScoringWts
deriving DecidableEq

/-- FeedbackProcessor.process_feedback: validate the feedback type (invalid
types return False with no state change), store the feedback row (a CHECK
violation returns False), update preferences for rating feedback
(_update_tweet_score only logs and mutates nothing), then adjust the scoring
weights; True on completion. -/
def processFeedback (now : ℤ) (st : ProcState) (tweetId userId ftype : String) :
    Bool × ProcState :=
  if validateFeedbackType ftype = false then (false, st)
  else
    let res := addFeedback st.feedback tweetId userId ftype now
    if res.1 = false then (false, { st with feedback := res.2 })
    else
      let st1 : ProcState := { st with feedback := res.2 }
      let st2 : ProcState :=
        if isRatingType ftype then
          { st1 with weights := updatePrefsFromRating st1.articles st1.weights tweetId ftype }
        else st1
      (true, { st2 with weights := adjustScoringWeights st2.weights })

/-- State of SmartPublisher: the articles table and the last local publish
timestamp. -/
structure PublisherState where
  db : List Row
  lastPublishTime : Option ℤ
deriving DecidableEq

/-- SmartPublisher.should_publish_now: True when no publish happened yet or
the configured interval (in minutes) has elapsed since the last one. -/
def shouldPublishNow (intervalMinutes now : ℤ) (st : PublisherState) : Bool :=
  match st.lastPublishTime with
  | none => true
  | some t => decide (intervalMinutes * 60 ≤ now - t)

/-- SmartPublisher.publish_single_article: hand the article to the delivery
adapter; on success mark it published and record the publish time, returning
True; on failure (or an exception from the adapter, both modelled by the
delivery oracle returning false) leave all state unchanged and return
False. -/
def publishSingleArticle (delivery : Row → Bool) (now : ℤ)
    (st : PublisherState) (a : Row) : Bool × PublisherState :=
  if delivery a then
    (true, { db := (markArticlePublished st.db a.id now).2,
             lastPublishTime := some now })
  else (false, st)

/-- SmartPublisher.publish_cycle: a no-op success when the interval has not
elapsed; otherwise refresh content from upstream (the fetch collaborator
returns an error flag plus the resulting table, and an error fails the
cycle), select the next article, succeed with nothing to do when none
exists, and otherwise delegate to publish_single_article. -/
def publishCycle (delivery : Row → Bool) (fetch : List Row → Bool × List Row)
    (intervalMinutes now : ℤ) (st : PublisherState) : Bool × PublisherState :=
  if shouldPublishNow intervalMinutes now st = false then (true, st)
  else
    let fr := fetch st.db
    if fr.1 then (false, { st with db := fr.2 })
    else
      match getNextArticleToPublish now fr.2 with
      | none => (true, { st with db := fr.2 })
      | some a => publishSingleArticle delivery now { st with db := fr.2 } a

/-- Concrete unpublished row used by the publish-state counterexample. -/
def rowA : Row :=
  { id := "a", text := "t", url := "u", score := 1, createdAt := 0,
    categories := [], publishedAt := none }

/-- Concrete insert argument with the same id and payload as rowA. -/
def artA : ArticleIn :=
  { id := "a", text := "t", url := "u", score := 1, createdAt := 0,
    categories := [] }

/-- Concrete table for the publish-monotonicity witness: article a already
published at time 5, article b unpublished. -/
def c1rows : List Row :=
  [{ id := "a", text := "ta", url := "ua", score := 3, createdAt := 0,
     categories := [], publishedAt := some 5 },
   { id := "b", text := "tb", url := "ub", score := 2, createdAt := 0,
     categories := [], publishedAt := none }]

/-- Concrete operation sequence without an insert of article a: a repeated
mark of a and a score update. -/
def c1ops : List LedgerOp :=
  [LedgerOp.mark "a" 7, LedgerOp.setScore "a" 30]

/-- Query time of the selector scenario. -/
def c3now : ℤ := 1000000

/-- Five unpublished rows all created more than 2 hours before c3now, with
distinct scores; the scenario of the two-tier selection claim. -/
def c3rows : List Row :=
  [{ id := "a1", text := "t1", url := "u1", score := 10, createdAt := 100,
     categories := [], publishedAt := none },
   { id := "a2", text := "t2", url := "u2", score := 50, createdAt := 200,
     categories := [], publishedAt := none },
   { id := "a3", text := "t3", url := "u3", score := 30, createdAt := 300,
     categories := [], publishedAt := none },
   { id := "a4", text := "t4", url := "u4", score := 20, createdAt := 400,
     categories := [], publishedAt := none },
   { id := "a5", text := "t5", url := "u5", score := 40, createdAt := 500,
     categories := [], publishedAt := none }]

/-- The highest-scored of the five older unpublished rows. -/
def c3best : Row :=
  { id := "a2", text := "t2", url := "u2", score := 50, createdAt := 200,
    categories := [], publishedAt := none }

/-- Stored table for the dedup scenario: one article whose text carries a
title-like sentence. -/
def c4rows : List Row :=
  [{ id := "d1", text := "Robot arms learn new skills", url := "https://old.example/a",
     score := 0, createdAt := 0, categories := [], publishedAt := none }]

/-- Constant similarity oracle reporting every pair as a perfect match. -/
def simOne : String → String → ℚ := fun _ _ => 1

/-- Concrete feedback-processor state for the vocabulary counterexample; the
weights carry whole-number values so the state is kernel-computable. -/
def procDemo : ProcState :=
  { articles := [], feedback := [],
    weights := { likes := 1, retweets := 2, replies := 2, userFeedback := 3,
                 authorFollowers := 1, contentLength := 1,
                 categoryWeights := [], userPreferences := [] } }

/-- Concrete zero-engagement item with 5000 followers, created half an hour
ago. -/
def t2demo : TweetData :=
  { likes := 0, retweets := 0, replies := 0, authorFollowers := 5000,
    text := "Robotics body", categories := [], hoursAgo := some (1/2) }

/-- Concrete engagement item used by the recency-monotonicity witness. -/
def t7demo : TweetData :=
  { likes := 20, retweets := 10, replies := 1, authorFollowers := 2000,
    text := "abc", categories := [], hoursAgo := none }

/-- Concrete weights with a configured preference and category map. -/
def w8demo : ScoringWts :=
  { defaultWts with
    userPreferences := [("learning_rate", 1/10), ("robotics", 1)],
    categoryWeights := [("robotics", 1)] }

/-- Concrete unpublished row for the publisher witness. -/
def row9 : Row :=
  { id := "p1", text := "x", url := "u9", score := 2, createdAt := 90000,
    categories := [], publishedAt := none }

/-- Concrete publisher state holding only row9, with no prior publish. -/
def st9 : PublisherState :=
  { db := [row9], lastPublishTime := none }

/-- The recency bonus is never negative. -/
lemma recencyBonus_nonneg (h : Option ℚ) : 0 ≤ recencyBonus h := by
  cases h with
  | none => simp [recencyBonus]
  | some v =>
    simp only [recencyBonus]
    split_ifs <;> norm_num

/-- The recency bonus is non-increasing in the hours elapsed. -/
lemma recencyBonus_antitone {h1 h2 : ℚ} (h : h1 ≤ h2) :
    recencyBonus (some h2) ≤ recencyBonus (some h1) := by
  simp only [recencyBonus]
  split_ifs <;> linarith

/-- The feedback adjustment is monotone in the base score: the multiplier it
applies is non-negative. -/
lemma applyFeedbackAdjustment_mono {b1 b2 : ℚ} (fb : FeedbackCounts)
    (h : b2 ≤ b1) :
    applyFeedbackAdjustment b2 fb ≤ applyFeedbackAdjustment b1 fb := by
  unfold applyFeedbackAdjustment
  split_ifs with hz hs
  · exact h
  · exact h
  · have hr : 0 ≤ (fb.like : ℚ) / ((fb.like : ℚ) + (fb.dislike : ℚ)) := by positivity
    have hm : 0 ≤ 1 + ((fb.like : ℚ) / ((fb.like : ℚ) + (fb.dislike : ℚ)) - 1/2) * 2 := by
      linarith
    exact mul_le_mul_of_nonneg_right h hm

/-- Selection under ORDER BY ... LIMIT 1 is empty exactly on an empty row
set. -/
lemma selectTop_eq_none {rs : List Row} : selectTop rs = none ↔ rs = [] := by
  induction rs with
  | nil => simp [selectTop]
  | cons r rest _ =>
    cases hs : selectTop rest with
    | none => simp [selectTop, hs]
    | some b =>
      simp only [selectTop, hs]
      split_ifs <;> simp

/-- The selected row belongs to the row set. -/
lemma selectTop_mem {rs : List Row} {r : Row} (h : selectTop rs = some r) :
    r ∈ rs := by
  induction rs generalizing r with
  | nil => simp [selectTop] at h
  | cons x rest ih =>
    cases hs : selectTop rest with
    | none =>
      simp only [selectTop, hs] at h
      injection h with h2
      subst h2
      exact List.mem_cons_self x rest
    | some b =>
      simp only [selectTop, hs] at h
      split_ifs at h with hc
      · injection h with h2
        subst h2
        exact List.mem_cons_of_mem x (ih hs)
      · injection h with h2
        subst h2
        exact List.mem_cons_self x rest

/-- The selected row has maximal score in the row set. -/
lemma selectTop_max_score {rs : List Row} {r : Row} (h : selectTop rs = some r) :
    ∀ x ∈ rs, x.score ≤ r.score := by
  induction rs generalizing r with
  | nil => simp [selectTop] at h
  | cons a rest ih =>
    cases hs : selectTop rest with
    | none =>
      simp only [selectTop, hs] at h
      injection h with h2
      subst h2
      have hrest : rest = [] := selectTop_eq_none.mp hs
      subst hrest
      intro x hx
      rcases List.mem_cons.mp hx with rfl | hx2
      · exact le_rfl
      · cases hx2
    | some b =>
      simp only [selectTop, hs] at h
      split_ifs at h with hc
      · injection h with h2
        subst h2
        intro x hx
        rcases List.mem_cons.mp hx with rfl | hx2
        · rcases hc with hgt | ⟨heq, _⟩
          · exact le_of_lt hgt
          · exact le_of_eq heq.symm
        · exact ih hs x hx2
      · injection h with h2
        subst h2
        push_neg at hc
        intro x hx
        rcases List.mem_cons.mp hx with rfl | hx2
        · exact le_rfl
        · exact le_trans (ih hs x hx2) hc.1

/-- Membership in the unpublished rows. -/
lemma mem_unpubRows {rows : List Row} {r : Row} :
    r ∈ unpubRows rows ↔ r ∈ rows ∧ r.publishedAt = none := by
  simp [unpubRows, List.mem_filter, Option.isNone_iff_eq_none]

/-- Membership in the recent unpublished rows. -/
lemma mem_recentUnpubRows {now : ℤ} {rows : List Row} {r : Row} :
    r ∈ recentUnpubRows now rows ↔
      r ∈ rows ∧ r.publishedAt = none ∧ now - 7200 ≤ r.createdAt := by
  simp [recentUnpubRows, List.mem_filter, Option.isNone_iff_eq_none, and_assoc]

/-- With no unpublished rows there are no recent unpublished rows either. -/
lemma recentUnpub_nil_of_unpub_nil {now : ℤ} {rows : List Row}
    (h : unpubRows rows = []) : recentUnpubRows now rows = [] := by
  rw [List.eq_nil_iff_forall_not_mem] at h ⊢
  intro x hx
  rcases mem_recentUnpubRows.mp hx with ⟨h1, h2, _⟩
  exact h x (mem_unpubRows.mpr ⟨h1, h2⟩)

/-- A selected next article is a stored unpublished row. -/
lemma getNext_some_unpub {now : ℤ} {rows : List Row} {x : Row}
    (h : getNextArticleToPublish now rows = some x) :
    x ∈ rows ∧ x.publishedAt = none := by
  cases hs : selectTop (recentUnpubRows now rows) with
  | some b =>
    simp only [getNextArticleToPublish, hs] at h
    injection h with h2
    subst h2
    rcases mem_recentUnpubRows.mp (selectTop_mem hs) with ⟨h1, h2, _⟩
    exact ⟨h1, h2⟩
  | none =>
    simp only [getNextArticleToPublish, hs] at h
    exact mem_unpubRows.mp (selectTop_mem h)

/-- C3: get_next_article_to_publish returns none exactly when no unpublished
row exists; a returned row is stored and unpublished; when an unpublished row
from the last 2 hours exists, a recent unpublished row of maximal score among
them is returned; otherwise the returned row has maximal score among all
unpublished rows. -/
theorem c3_two_tier_selection (now : ℤ) (rows : List Row) :
    (getNextArticleToPublish now rows = none ↔ unpubRows rows = []) ∧
    (∀ r, getNextArticleToPublish now rows = some r →
      r ∈ rows ∧ r.publishedAt = none) ∧
    (∀ r, getNextArticleToPublish now rows = some r →
      recentUnpubRows now rows ≠ [] →
      r ∈ recentUnpubRows now rows ∧
        ∀ x ∈ recentUnpubRows now rows, x.score ≤ r.score) ∧
    (∀ r, getNextArticleToPublish now rows = some r →
      recentUnpubRows now rows = [] →
      ∀ x ∈ unpubRows rows, x.score ≤ r.score) := by
  refine ⟨?_, fun r h => getNext_some_unpub h, ?_, ?_⟩
  · cases hs : selectTop (recentUnpubRows now rows) with
    | some b =>
      simp only [getNextArticleToPublish, hs]
      constructor
      · intro h
        cases h
      · intro h
        rw [recentUnpub_nil_of_unpub_nil h] at hs
        cases hs
    | none =>
      simp only [getNextArticleToPublish, hs]
      exact selectTop_eq_none
  · intro r h hne
    cases hs : selectTop (recentUnpubRows now rows) with
    | some b =>
      simp only [getNextArticleToPublish, hs] at h
      injection h with h2
      subst h2
      exact ⟨selectTop_mem hs, selectTop_max_score hs⟩
    | none =>
      exact absurd (selectTop_eq_none.mp hs) hne
  · intro r h hnil
    simp only [getNextArticleToPublish, hnil, selectTop] at h
    exact selectTop_max_score h

/-- Witness for the two-tier selection on the concrete scenario: none of the
five unpublished rows is recent, and the selector returns the one with the
highest score rather than nothing. -/
theorem c3_witness :
    getNextArticleToPublish c3now c3rows = some c3best ∧
    recentUnpubRows c3now c3rows = [] ∧
    ∀ x ∈ unpubRows c3rows, x.score ≤ c3best.score := by
  refine ⟨by decide, by decide, fun x hx => ?_⟩
  exact (c3_two_tier_selection c3now c3rows).2.2.2 c3best (by decide) (by decide) x hx

/-- A row found by id is a stored row with that id. -/
lemma findRow_mem {rows : List Row} {artId : String} {r : Row}
    (h : findRow rows artId = some r) : r ∈ rows ∧ r.id = artId := by
  refine ⟨List.mem_of_find?_eq_some h, ?_⟩
  have := List.find?_some h
  simpa using this

/-- Unfolding of the row lookup on a cons cell. -/
lemma findRow_cons (x : Row) (rest : List Row) (artId : String) :
    findRow (x :: rest) artId =
      if x.id = artId then some x else findRow rest artId := by
  unfold findRow
  by_cases hx : x.id = artId
  · rw [if_pos hx]
    apply List.find?_cons_of_pos
    simp [hx]
  · rw [if_neg hx]
    apply List.find?_cons_of_neg
    simp [hx]

/-- Lookup by id commutes with a row transformation preserving ids. -/
lemma findRow_map_pres (f : Row → Row) (hf : ∀ r, (f r).id = r.id)
    (rows : List Row) (artId : String) :
    findRow (rows.map f) artId = (findRow rows artId).map f := by
  induction rows with
  | nil => simp [findRow]
  | cons x rest ih =>
    rw [List.map_cons, findRow_cons, findRow_cons]
    by_cases hx : x.id = artId
    · rw [if_pos (by rw [hf]; exact hx), if_pos hx]
      rfl
    · rw [if_neg (by rw [hf]; exact hx), if_neg hx]
      exact ih

/-- Lookup by id is unchanged by a filter keeping every row of that id. -/
lemma findRow_filter_eq (q : Row → Bool) (rows : List Row) (artId : String)
    (hq : ∀ r, r.id = artId → q r = true) :
    findRow (rows.filter q) artId = findRow rows artId := by
  induction rows with
  | nil => simp
  | cons x rest ih =>
    by_cases hqx : q x = true
    · rw [List.filter_cons_of_pos hqx, findRow_cons, findRow_cons]
      by_cases hx : x.id = artId
      · rw [if_pos hx, if_pos hx]
      · rw [if_neg hx, if_neg hx]
        exact ih
    · have hx : ¬(x.id = artId) := fun h => hqx (hq x h)
      rw [List.filter_cons_of_neg (by simpa using hqx), findRow_cons, if_neg hx]
      exact ih

/-- A successful lookup in a left part survives appending rows. -/
lemma findRow_append_left {rows1 : List Row} {artId : String} {r : Row}
    (rows2 : List Row) (h : findRow rows1 artId = some r) :
    findRow (rows1 ++ rows2) artId = some r := by
  induction rows1 with
  | nil => simp [findRow] at h
  | cons x rest ih =>
    rw [List.cons_append, findRow_cons]
    rw [findRow_cons] at h
    by_cases hx : x.id = artId
    · rw [if_pos hx] at h ⊢
      exact h
    · rw [if_neg hx] at h ⊢
      exact ih h

/-- An id-preserving row transformation preserves the stored ids. -/
lemma rowIds_map_pres (f : Row → Row) (hf : ∀ r, (f r).id = r.id)
    (rows : List Row) : rowIds (rows.map f) = rowIds rows := by
  unfold rowIds
  induction rows with
  | nil => rfl
  | cons x rest ih => simp [hf, ih]

/-- Every modelled ledger operation preserves distinctness of the stored ids
(the PRIMARY KEY invariant). -/
lemma nodup_applyOp {rows : List Row} (op : LedgerOp)
    (h : (rowIds rows).Nodup) : (rowIds (applyOp rows op)).Nodup := by
  cases op with
  | insert a =>
    unfold rowIds at h
    unfold applyOp insertArticle rowIds
    rw [List.map_append, List.nodup_append]
    refine ⟨?_, by simp, ?_⟩
    · exact h.sublist ((List.filter_sublist rows).map _)
    · intro y hy hmem
      rcases List.mem_map.mp hy with ⟨rr, hrr, rfl⟩
      have hpred := (List.mem_filter.mp hrr).2
      have hne : rr.id ≠ a.id := by simpa using hpred
      simp only [List.map_cons, List.map_nil, List.mem_cons,
        List.not_mem_nil, or_false] at hmem
      exact hne hmem
  | mark mid t =>
    unfold applyOp markArticlePublished
    rw [rowIds_map_pres _ (fun rr => by by_cases hr : rr.id = mid <;> simp [hr])]
    exact h
  | setScore sid s =>
    unfold applyOp updateArticleScore
    rw [rowIds_map_pres _ (fun rr => by by_cases hr : rr.id = sid <;> simp [hr])]
    exact h

/-- With distinct stored ids, two stored rows sharing an id are equal. -/
lemma nodup_unique {rows : List Row} (h : (rowIds rows).Nodup) {x y : Row}
    (hx : x ∈ rows) (hy : y ∈ rows) (hid : x.id = y.id) : x = y := by
  induction rows with
  | nil => cases hx
  | cons a rest ih =>
    unfold rowIds at h
    rw [List.map_cons, List.nodup_cons] at h
    rcases List.mem_cons.mp hx with rfl | hx2
    · rcases List.mem_cons.mp hy with rfl | hy2
      · rfl
      · have hmem : y.id ∈ rest.map (fun rr => rr.id) :=
          List.mem_map_of_mem _ hy2
        rw [← hid] at hmem
        exact absurd hmem h.1
    · rcases List.mem_cons.mp hy with rfl | hy2
      · have hmem : x.id ∈ rest.map (fun rr => rr.id) :=
          List.mem_map_of_mem _ hx2
        rw [hid] at hmem
        exact absurd hmem h.1
      · exact ih h.2 hx2 hy2

/-- A published row stays present and published across one ledger operation
that is not an insert of its id: marking rewrites published_at to another
timestamp and score updates leave it alone. -/
lemma applyOp_keeps_published {rows : List Row} {op : LedgerOp}
    {artId : String} {r : Row}
    (hf : findRow rows artId = some r) (hp : r.publishedAt ≠ none)
    (hop : ∀ a, op = LedgerOp.insert a → a.id ≠ artId) :
    ∃ r2, findRow (applyOp rows op) artId = some r2 ∧ r2.publishedAt ≠ none := by
  cases op with
  | insert a =>
    have hid : a.id ≠ artId := hop a rfl
    have h1 : findRow (rows.filter fun rr => decide (rr.id ≠ a.id)) artId =
        findRow rows artId := by
      apply findRow_filter_eq
      intro rr hrr
      have : rr.id ≠ a.id := by
        rw [hrr]
        exact fun hh => hid hh.symm
      simpa using this
    refine ⟨r, ?_, hp⟩
    unfold applyOp insertArticle
    exact findRow_append_left _ (h1.trans hf)
  | mark mid t =>
    unfold applyOp markArticlePublished
    rw [findRow_map_pres _ (fun rr => by by_cases hr : rr.id = mid <;> simp [hr]),
      hf]
    refine ⟨_, rfl, ?_⟩
    by_cases hr : r.id = mid
    · simp [hr]
    · simp [hr]
      exact hp
  | setScore sid s =>
    unfold applyOp updateArticleScore
    rw [findRow_map_pres _ (fun rr => by by_cases hr : rr.id = sid <;> simp [hr]),
      hf]
    refine ⟨_, rfl, ?_⟩
    by_cases hr : r.id = sid
    · simp [hr]
      exact hp
    · simp [hr]
      exact hp

/-- C1 amended: starting from a table with distinct ids in which the article
is published, any sequence of mark_article_published, update_article_score
and insert_article operations that never re-inserts that id keeps its
published_at non-null (a second mark overwrites it with a new timestamp but
never clears it), and get_next_article_to_publish never returns that id. The
original claim fails because a second mark changes the stored timestamp and
because insert_article on an existing id resets published_at to null; see
the counterexample. -/
theorem c1_publish_state_amended (rows : List Row) (ops : List LedgerOp)
    (artId : String) (r : Row)
    (hnd : (rowIds rows).Nodup)
    (hfind : findRow rows artId = some r)
    (hpub : r.publishedAt ≠ none) :
    (∀ a, LedgerOp.insert a ∈ ops → a.id ≠ artId) →
    (∃ r2, findRow (applyOps rows ops) artId = some r2 ∧ r2.publishedAt ≠ none) ∧
    (∀ now x, getNextArticleToPublish now (applyOps rows ops) = some x →
      x.id ≠ artId) := by
  induction ops generalizing rows r with
  | nil =>
    intro _
    refine ⟨⟨r, hfind, hpub⟩, ?_⟩
    intro now x hx heq
    rcases getNext_some_unpub hx with ⟨hxmem, hxpub⟩
    rcases findRow_mem hfind with ⟨hrmem, hrid⟩
    have hxy : x = r := nodup_unique hnd hxmem hrmem (by rw [heq, hrid])
    rw [hxy] at hxpub
    exact hpub hxpub
  | cons op rest ih =>
    intro hins
    have hop : ∀ a, op = LedgerOp.insert a → a.id ≠ artId := by
      intro a ha
      subst ha
      exact hins a (List.mem_cons_self _ rest)
    rcases applyOp_keeps_published hfind hpub hop with ⟨r1, hf1, hp1⟩
    have hnd1 := nodup_applyOp op hnd
    exact ih (applyOp rows op) r1 hnd1 hf1 hp1
      (fun a ha => hins a (List.mem_cons_of_mem op ha))

/-- Counterexample to C1 as stated: marking article a at time 1 stores
published_at 1; a second mark at time 2 changes it to 2 (not a no-op);
re-inserting the article resets published_at to null, after which the
selector returns article a again even though mark had succeeded. -/
theorem c1_counterexample :
    ((findRow (applyOps [rowA] [LedgerOp.mark "a" 1]) "a").map Row.publishedAt =
      some (some 1)) ∧
    ((findRow (applyOps [rowA] [LedgerOp.mark "a" 1, LedgerOp.mark "a" 2])
        "a").map Row.publishedAt = some (some 2)) ∧
    ((findRow (applyOps [rowA] [LedgerOp.mark "a" 1, LedgerOp.insert artA])
        "a").map Row.publishedAt = some none) ∧
    (getNextArticleToPublish 0
        (applyOps [rowA] [LedgerOp.mark "a" 1, LedgerOp.insert artA]) =
      some rowA) := by
  decide

/-- Witness for the amended publish-state theorem on the concrete table
c1rows and operation sequence c1ops. -/
theorem c1_witness :
    (∃ r2, findRow (applyOps c1rows c1ops) "a" = some r2 ∧
      r2.publishedAt ≠ none) ∧
    (∀ now x, getNextArticleToPublish now (applyOps c1rows c1ops) = some x →
      x.id ≠ "a") := by
  refine c1_publish_state_amended c1rows c1ops "a"
    { id := "a", text := "ta", url := "ua", score := 3, createdAt := 0,
      categories := [], publishedAt := some 5 }
    (by decide) (by decide) (by decide) ?_
  intro a ha
  simp [c1ops] at ha

/-- C2: with likes = 0, retweets = 0 and fewer than 100 author followers the
final score is exactly 0 for every configuration and feedback tally (the
threshold gate short-circuits); with zero engagement and at least 100
followers, non-negative author and content weights, a non-negative log10
value, no configured category weights and no feedback tally supplied, the
final score is at least 100. -/
theorem c2_threshold_gate (lg : ℚ → ℚ) (w : ScoringWts) (th : Thresholds)
    (t : TweetData) (fb : Option FeedbackCounts) :
    (t.likes = 0 → t.retweets = 0 → t.authorFollowers < 100 →
      calculateFinalScore lg w th t fb = 0) ∧
    (t.likes = 0 → t.retweets = 0 → 100 ≤ t.authorFollowers →
      0 ≤ lg (max (t.authorFollowers : ℚ) 1) →
      0 ≤ w.authorFollowers → 0 ≤ w.contentLength →
      w.categoryWeights = [] → fb = none →
      100 ≤ calculateFinalScore lg w th t fb) := by
  constructor
  · intro hl hr hf
    have hgate : meetsThresholds th t = false := by
      simp [meetsThresholds, hl, hr, Nat.not_le.mpr hf]
    simp [calculateFinalScore, hgate]
  · intro hl hr hf hlg hwa hwc hcw hfb
    have hgate : meetsThresholds th t = true := by
      simp [meetsThresholds, hl, hr, hf]
    have hbase : 100 ≤ calculateBaseScore lg w t := by
      unfold calculateBaseScore
      rw [if_pos ⟨hl, hr⟩]
      have ha : 0 ≤ lg (max (t.authorFollowers : ℚ) 1) * w.authorFollowers :=
        mul_nonneg hlg hwa
      have hc : 0 ≤ min ((t.text.length : ℚ) / 280) 1 * w.contentLength :=
        mul_nonneg (le_min (by positivity) (by norm_num)) hwc
      have hrb := recencyBonus_nonneg t.hoursAgo
      linarith
    have hcat : calculateCategoryScore w t = 1 := by
      simp [calculateCategoryScore, hcw]
    subst hfb
    unfold calculateFinalScore
    rw [hgate]
    simp only [Bool.true_eq_false, if_false, hcat, mul_one]
    calc (100 : ℚ) ≤ calculateBaseScore lg w t := hbase
    _ ≤ max 0 (calculateBaseScore lg w t) := le_max_right _ _

/-- Witness instantiating both parts of the threshold-gate theorem: a
zero-engagement item with 20 followers scores exactly 0; the concrete
zero-engagement item t2demo with 5000 followers scores at least 100 under the
default weights with log10 modelled as the constant 3. -/
theorem c2_witness :
    calculateFinalScore (fun _ => 3) defaultWts defaultThresholds
      { t2demo with authorFollowers := 20 } none = 0 ∧
    100 ≤ calculateFinalScore (fun _ => 3) defaultWts defaultThresholds t2demo none := by
  constructor
  · exact (c2_threshold_gate (fun _ => 3) defaultWts defaultThresholds
      { t2demo with authorFollowers := 20 } none).1 rfl rfl (by norm_num [t2demo])
  · exact (c2_threshold_gate (fun _ => 3) defaultWts defaultThresholds
      t2demo none).2 rfl rfl (by norm_num [t2demo]) (by norm_num)
      (by norm_num [defaultWts]) (by norm_num [defaultWts]) rfl rfl

/-- C6: for a non-negative base score and a feedback tally not identically
zero, apply_feedback_adjustment returns base times 1 + (like_ratio - 1/2) * 2
and the result lies between 0 and twice the base; with both counts zero the
base is returned unchanged; 8 likes and 2 dislikes give the multiplier 8/5. -/
theorem c6_feedback_adjustment_bounds (B : ℚ) (l d : ℕ) (hB : 0 ≤ B) :
    (¬(l = 0 ∧ d = 0) →
      applyFeedbackAdjustment B ⟨l, d⟩ =
        B * (1 + ((l : ℚ) / ((l : ℚ) + (d : ℚ)) - 1/2) * 2) ∧
      0 ≤ applyFeedbackAdjustment B ⟨l, d⟩ ∧
      applyFeedbackAdjustment B ⟨l, d⟩ ≤ 2 * B) ∧
    (l = 0 → d = 0 → applyFeedbackAdjustment B ⟨l, d⟩ = B) ∧
    applyFeedbackAdjustment B ⟨8, 2⟩ = (8/5) * B := by
  refine ⟨?_, ?_, ?_⟩
  · intro hnz
    have hsum : l + d ≠ 0 := by
      intro hzero
      exact hnz ⟨Nat.eq_zero_of_add_eq_zero_right hzero,
        Nat.eq_zero_of_add_eq_zero_left hzero⟩
    have heq : applyFeedbackAdjustment B ⟨l, d⟩ =
        B * (1 + ((l : ℚ) / ((l : ℚ) + (d : ℚ)) - 1/2) * 2) := by
      unfold applyFeedbackAdjustment
      rw [if_neg hnz, if_neg hsum]
    have hsq : (0 : ℚ) < (l : ℚ) + (d : ℚ) := by
      have : 0 < l + d := Nat.pos_of_ne_zero hsum
      exact_mod_cast this
    have hr0 : 0 ≤ (l : ℚ) / ((l : ℚ) + (d : ℚ)) := by positivity
    have hr1 : (l : ℚ) / ((l : ℚ) + (d : ℚ)) ≤ 1 := by
      rw [div_le_one hsq]
      have : (0 : ℚ) ≤ (d : ℚ) := by positivity
      linarith
    refine ⟨heq, ?_, ?_⟩
    · rw [heq]
      have : 0 ≤ 1 + ((l : ℚ) / ((l : ℚ) + (d : ℚ)) - 1/2) * 2 := by linarith
      exact mul_nonneg hB this
    · rw [heq]
      have : 1 + ((l : ℚ) / ((l : ℚ) + (d : ℚ)) - 1/2) * 2 ≤ 2 := by linarith
      calc B * (1 + ((l : ℚ) / ((l : ℚ) + (d : ℚ)) - 1/2) * 2) ≤ B * 2 :=
            mul_le_mul_of_nonneg_left this hB
      _ = 2 * B := by ring
  · intro hl hd
    simp [applyFeedbackAdjustment, hl, hd]
  · have h8 : applyFeedbackAdjustment B ⟨8, 2⟩ =
        B * (1 + ((8 : ℚ) / ((8 : ℚ) + (2 : ℚ)) - 1/2) * 2) := by
      unfold applyFeedbackAdjustment
      norm_num
    rw [h8]
    ring_nf

/-- Witness for the feedback bound at base 10 with 8 likes and 2 dislikes. -/
theorem c6_witness :
    0 ≤ (10 : ℚ) ∧ applyFeedbackAdjustment 10 ⟨8, 2⟩ = (8/5) * 10 :=
  ⟨by norm_num, (c6_feedback_adjustment_bounds 10 8 2 (by norm_num)).2.2⟩

/-- C7: the recency bonus is non-increasing in the hours since creation, and
two items identical except for created_at, scored under the same weights,
thresholds, feedback and categories (with a non-negative category
multiplier), rank with the fresher item at least as high. -/
theorem c7_recency_monotonicity :
    (∀ h1 h2 : ℚ, h1 ≤ h2 →
      recencyBonus (some h2) ≤ recencyBonus (some h1)) ∧
    (∀ (lg : ℚ → ℚ) (w : ScoringWts) (th : Thresholds) (t : TweetData)
       (fb : Option FeedbackCounts) (h1 h2 : ℚ), h1 ≤ h2 →
      0 ≤ calculateCategoryScore w { t with hoursAgo := some h1 } →
      calculateFinalScore lg w th { t with hoursAgo := some h2 } fb ≤
        calculateFinalScore lg w th { t with hoursAgo := some h1 } fb) := by
  constructor
  · exact fun h1 h2 h => recencyBonus_antitone h
  · intro lg w th t fb h1 h2 hle hcat
    have hbase : calculateBaseScore lg w { t with hoursAgo := some h2 } ≤
        calculateBaseScore lg w { t with hoursAgo := some h1 } := by
      unfold calculateBaseScore
      have hrb := recencyBonus_antitone hle
      split_ifs <;> simp only <;> linarith
    unfold calculateFinalScore
    have hm : meetsThresholds th { t with hoursAgo := some h2 } =
        meetsThresholds th { t with hoursAgo := some h1 } := rfl
    rw [hm]
    cases hmv : meetsThresholds th { t with hoursAgo := some h1 } with
    | false => simp
    | true =>
      simp only [Bool.true_eq_false, if_false]
      have hadj :
          (match fb with
           | some f => applyFeedbackAdjustment
               (calculateBaseScore lg w { t with hoursAgo := some h2 }) f
           | none => calculateBaseScore lg w { t with hoursAgo := some h2 }) ≤
          (match fb with
           | some f => applyFeedbackAdjustment
               (calculateBaseScore lg w { t with hoursAgo := some h1 }) f
           | none => calculateBaseScore lg w { t with hoursAgo := some h1 }) := by
        cases fb with
        | none => exact hbase
        | some f => exact applyFeedbackAdjustment_mono f hbase
      have hcatEq : calculateCategoryScore w { t with hoursAgo := some h2 } =
          calculateCategoryScore w { t with hoursAgo := some h1 } := rfl
      rw [hcatEq]
      exact max_le_max le_rfl
        (mul_le_mul_of_nonneg_right hadj hcat)

/-- Witness comparing the concrete item t7demo at ages half an hour and 30
hours under the default configuration. -/
theorem c7_witness :
    (1/2 : ℚ) ≤ 30 ∧
    calculateFinalScore (fun _ => 0) defaultWts defaultThresholds
        { t7demo with hoursAgo := some 30 } none ≤
      calculateFinalScore (fun _ => 0) defaultWts defaultThresholds
        { t7demo with hoursAgo := some (1/2) } none :=
  ⟨by norm_num,
   c7_recency_monotonicity.2 (fun _ => 0) defaultWts defaultThresholds t7demo
     none (1/2) 30 (by norm_num)
     (by norm_num [calculateCategoryScore, defaultWts])⟩

/-- C4 (code bug): the fuzzy title stage of the dedup gate is dead code. The
title query always raises because the articles table has no title column, the
exception handler returns False, so title_similarity_exists is constantly
False for every similarity oracle, every stored table and every threshold;
is_duplicate_content without a content preview degrades to the exact URL
check; concretely, a candidate title identical to stored text (similarity 1
under the constant oracle) with a fresh URL is not reported as duplicate. -/
theorem c4_title_stage_dead :
    (articlesTableColumns.contains "title" = false) ∧
    (∀ (sim : String → String → ℚ) (rows : List Row) (title : String)
       (threshold : ℚ),
      titleSimilarityExists sim rows title threshold = false) ∧
    (∀ (sim : String → String → ℚ) (rows : List Row) (title url : String),
      isDuplicateContent sim rows title url none = urlExists rows url) ∧
    isDuplicateContent simOne c4rows "Robot arms learn new skills"
      "https://new.example/x" none = false := by
  refine ⟨by decide, fun sim rows title threshold => rfl, ?_, by decide⟩
  intro sim rows title url
  cases hu : urlExists rows url with
  | true => simp [isDuplicateContent, hu]
  | false =>
    simp [isDuplicateContent, titleSimilarityExists, selectRecentTitles, hu]

/-- C5 amended: process_feedback rejects every feedback type failing the
source validation with no state change, and the validation accepts exactly
like, dislike and the rating types, while the review vocabulary approved,
rejected, edited and skipped is rejected. -/
theorem c5_feedback_vocabulary_amended :
    (∀ (now : ℤ) (st : ProcState) (tweetId userId t : String),
      validateFeedbackType t = false →
      processFeedback now st tweetId userId t = (false, st)) ∧
    (validateFeedbackType "like" = true ∧
     validateFeedbackType "dislike" = true ∧
     validateFeedbackType "rating_1" = true ∧
     validateFeedbackType "rating_2" = true ∧
     validateFeedbackType "rating_3" = true ∧
     validateFeedbackType "rating_4" = true ∧
     validateFeedbackType "rating_5" = true ∧
     validateFeedbackType "approved" = false ∧
     validateFeedbackType "rejected" = false ∧
     validateFeedbackType "edited" = false ∧
     validateFeedbackType "skipped" = false) := by
  constructor
  · intro now st tweetId userId t h
    simp [processFeedback, h]
  · exact ⟨by decide, by decide, by decide, by decide, by decide, by decide,
      by decide, by decide, by decide, by decide, by decide⟩

/-- Counterexample to C5 as stated: the review type approved, part of the
claimed vocabulary, is rejected by process_feedback at a concrete state. -/
theorem c5_counterexample :
    processFeedback 0 procDemo "a1" "u1" "approved" = (false, procDemo) := by
  decide

/-- Witness applying the amended vocabulary theorem to the rejected type
skipped at a concrete state. -/
theorem c5_witness :
    validateFeedbackType "skipped" = false ∧
    processFeedback 5 procDemo "a2" "u2" "skipped" = (false, procDemo) :=
  ⟨by decide,
   c5_feedback_vocabulary_amended.1 5 procDemo "a2" "u2" "skipped" (by decide)⟩

/-- Lookup of the freshly assigned key in a Python-style dict update. -/
lemma lookup_insertKV_self (m : List (String × ℚ)) (k : String) (v : ℚ) :
    (insertKV m k v).lookup k = some v := by
  induction m with
  | nil => simp [insertKV, List.lookup]
  | cons p rest ih =>
    obtain ⟨k2, v2⟩ := p
    by_cases hk : k2 = k
    · simp [insertKV, hk, List.lookup]
    · have hbeq : (k == k2) = false := by
        simp [Ne.symm hk]
      simp [insertKV, hk, List.lookup, hbeq, ih]

/-- Lookup of a different key is unchanged by a dict update. -/
lemma lookup_insertKV_ne (m : List (String × ℚ)) {k k2 : String} (v : ℚ)
    (h : k2 ≠ k) : (insertKV m k v).lookup k2 = m.lookup k2 := by
  induction m with
  | nil =>
    have hbeq : (k2 == k) = false := by simp [h]
    simp [insertKV, List.lookup, hbeq]
  | cons p rest ih =>
    obtain ⟨k3, v3⟩ := p
    by_cases hk : k3 = k
    · subst hk
      have hbeq : (k2 == k3) = false := by simp [h]
      simp [insertKV, List.lookup, hbeq]
    · simp [insertKV, hk, List.lookup, ih]

/-- One update_user_preferences call leaves a category weight unchanged or
writes a value of at least 1/10 for it. -/
lemma updateUserPreferences_clamp (w : ScoringWts) (c : String) (rt : ℤ)
    (cat : String) :
    (updateUserPreferences w c rt).categoryWeights.lookup cat =
      w.categoryWeights.lookup cat ∨
    ∃ v, (updateUserPreferences w c rt).categoryWeights.lookup cat = some v ∧
      (1 : ℚ)/10 ≤ v := by
  unfold updateUserPreferences
  by_cases h1 : w.userPreferences = []
  · rw [if_pos h1]
    exact Or.inl rfl
  · rw [if_neg h1]
    dsimp only
    by_cases h2 : w.categoryWeights = []
    · rw [if_pos h2]
      exact Or.inl rfl
    · rw [if_neg h2]
      by_cases hc : c = cat
      · subst hc
        exact Or.inr ⟨_, lookup_insertKV_self _ _ _, le_max_left _ _⟩
      · rw [lookup_insertKV_ne _ _ (fun hh => hc hh.symm)]
        exact Or.inl rfl

/-- C8: after any sequence of update_user_preferences calls, each category
weight is either untouched or holds a written value of at least 1/10; and a
single update with a configured (non-empty) user_preferences dict stores the
unclamped value old + lr * ((rating - 1)/4 - old) as the preference and, when
the category_weights dict is configured, the clamped value max(1/10, new) as
the category weight. -/
theorem c8_category_weight_clamp (w : ScoringWts) (us : List (String × ℤ))
    (cat : String) :
    ((applyPrefUpdates w us).categoryWeights.lookup cat =
        w.categoryWeights.lookup cat ∨
      ∃ v, (applyPrefUpdates w us).categoryWeights.lookup cat = some v ∧
        (1 : ℚ)/10 ≤ v) ∧
    (∀ (w2 : ScoringWts) (c : String) (rt : ℤ), w2.userPreferences ≠ [] →
      (updateUserPreferences w2 c rt).userPreferences.lookup c =
        some (newPrefValue w2 c rt) ∧
      (w2.categoryWeights ≠ [] →
        (updateUserPreferences w2 c rt).categoryWeights.lookup c =
          some (max ((1 : ℚ)/10) (newPrefValue w2 c rt)))) := by
  constructor
  · induction us generalizing w with
    | nil => exact Or.inl rfl
    | cons u rest ih =>
      have hstep := updateUserPreferences_clamp w u.1 u.2 cat
      have hrest := ih (updateUserPreferences w u.1 u.2)
      rcases hrest with h | h
      · rcases hstep with h2 | ⟨v, hv, hv2⟩
        · exact Or.inl (h.trans h2)
        · exact Or.inr ⟨v, h.trans hv, hv2⟩
      · exact Or.inr h
  · intro w2 c rt h1
    unfold updateUserPreferences
    rw [if_neg h1]
    dsimp only
    refine ⟨lookup_insertKV_self _ _ _, ?_⟩
    intro h2
    rw [if_neg h2]
    exact lookup_insertKV_self _ _ _

/-- Witness for the clamp theorem on the concrete configured weights w8demo
rated 4 for the robotics category. -/
theorem c8_witness :
    w8demo.userPreferences ≠ [] ∧ w8demo.categoryWeights ≠ [] ∧
    (updateUserPreferences w8demo "robotics" 4).userPreferences.lookup
      "robotics" = some (newPrefValue w8demo "robotics" 4) ∧
    (updateUserPreferences w8demo "robotics" 4).categoryWeights.lookup
      "robotics" = some (max ((1 : ℚ)/10) (newPrefValue w8demo "robotics" 4)) := by
  have h := (c8_category_weight_clamp w8demo [] "robotics").2 w8demo "robotics" 4
    (by decide)
  exact ⟨by decide, by decide, h.1, h.2 (by decide)⟩

/-- C9: a delivery failure leaves the publisher state untouched (the article
is not marked published and the last-publish timestamp is unchanged) and the
cycle reports failure; with nothing to publish after a successful fetch the
cycle reports success. -/
theorem c9_delivery_failure_semantics :
    (∀ (delivery : Row → Bool) (now : ℤ) (st : PublisherState) (a : Row),
      delivery a = false →
      publishSingleArticle delivery now st a = (false, st)) ∧
    (∀ (delivery : Row → Bool) (fetch : List Row → Bool × List Row)
       (intervalMinutes now : ℤ) (st : PublisherState) (db1 : List Row)
       (a : Row),
      shouldPublishNow intervalMinutes now st = true →
      fetch st.db = (false, db1) →
      getNextArticleToPublish now db1 = some a →
      delivery a = false →
      publishCycle delivery fetch intervalMinutes now st =
        (false, { st with db := db1 }) ∧ a.publishedAt = none) ∧
    (∀ (delivery : Row → Bool) (fetch : List Row → Bool × List Row)
       (intervalMinutes now : ℤ) (st : PublisherState) (db1 : List Row),
      shouldPublishNow intervalMinutes now st = true →
      fetch st.db = (false, db1) →
      getNextArticleToPublish now db1 = none →
      publishCycle delivery fetch intervalMinutes now st =
        (true, { st with db := db1 })) := by
  refine ⟨?_, ?_, ?_⟩
  · intro delivery now st a h
    simp [publishSingleArticle, h]
  · intro delivery fetch intervalMinutes now st db1 a hsp hfetch hnext hdel
    refine ⟨?_, (getNext_some_unpub hnext).2⟩
    simp [publishCycle, hsp, hfetch, hnext, publishSingleArticle, hdel]
  · intro delivery fetch intervalMinutes now st db1 hsp hfetch hnext
    simp [publishCycle, hsp, hfetch, hnext]

/-- Witness running one cycle over the concrete state st9 with a failing
delivery adapter and an identity fetch. -/
theorem c9_witness :
    publishCycle (fun _ => false) (fun d => (false, d)) 30 90000 st9 =
      (false, { st9 with db := [row9] }) ∧ row9.publishedAt = none :=
  c9_delivery_failure_semantics.2.1 (fun _ => false) (fun d => (false, d))
    30 90000 st9 [row9] row9 (by decide) rfl (by decide) rfl

/-- C10: when the configured user_preferences map is empty (None or the empty
dict, both falsy), update_user_preferences returns with no state change for
every category and rating. -/
theorem c10_empty_preferences_noop (w : ScoringWts) (category : String)
    (rating : ℤ) (h : w.userPreferences = []) :
    updateUserPreferences w category rating = w := by
  simp [updateUserPreferences, h]

/-- Witness: the default weights carry no user_preferences, so an update is a
no-op. -/
theorem c10_witness :
    defaultWts.userPreferences = [] ∧
    updateUserPreferences defaultWts "robotics" 5 = defaultWts :=
  ⟨rfl, c10_empty_preferences_noop defaultWts "robotics" 5 rfl⟩


